import Mathlib

/-!
Verification of the CAS batch-resolution engine (`cas_lookup_app.py`).

The engine resolves chemical registry identifiers (CAS numbers) to
(molecular formula, molecular weight) pairs, consulting a static override
dictionary first and the PubChem remote lookup service second, with a
fixed retry budget and a bounded thread pool.

Shallow embedding notes:
* Python `float` values are modelled as `ℚ` (the claims never perform
  floating-point arithmetic; only presence/absence and propagation of the
  stored values matter, so the decimal literals of the source are carried
  exactly as rationals).
* The remote HTTP interaction of one attempt is abstracted by an oracle
  `Nat → RemoteOutcome` giving, for each successive call to the external
  service, either `exn` (any raised exception: connection failure, timeout,
  malformed JSON body, or any other unexpected error — all caught by the
  source's bare `except Exception: pass`) or `status code properties`
  (a parsed response with its HTTP status code and decoded property list).
* The thread pool writes each future's result into the slot of its own
  index; since every submitted task owns a distinct index, the final slot
  contents do not depend on completion order, and the fold below records
  results in submission order.
-/

/-- A resolved property pair: (formula, weight), both optional.
Mirrors the Python return type `tuple[str | None, float | None]`. -/
abbrev PropertyResult := Option String × Option ℚ

/-- A JSON scalar as it may appear in the `MolecularWeight` field:
`null` (field absent, `prop.get` returns `None`, `float(None)` raises
`TypeError`), a string (to be parsed), a number, or any other JSON value
(array/object) on which `float` raises `TypeError`. -/
inductive PyVal
  | null
  | str (s : String)
  | num (q : ℚ)
  | other
  deriving DecidableEq, Repr

/-- Accumulate a digit list into a natural number. -/
def digitsVal (ds : List Char) : Nat :=
  ds.foldl (fun a c => a * 10 + (c.toNat - 48)) 0

/-- Split a character list at the first `'.'`, if any. -/
def splitDot : List Char → List Char × Option (List Char)
  | [] => ([], Option.none)
  | c :: cs =>
    if c = '.' then ([], some cs)
    else
      let p := splitDot cs
      (c :: p.1, p.2)

/-- Split a character list at the first `'e'` or `'E'`, if any. -/
def splitE : List Char → List Char × Option (List Char)
  | [] => ([], Option.none)
  | c :: cs =>
    if c = 'e' ∨ c = 'E' then ([], some cs)
    else
      let p := splitE cs
      (c :: p.1, p.2)

/-- Strip leading and trailing whitespace from a character list (the
whitespace stripping `float(str)` performs before parsing). -/
def trimChars (cs : List Char) : List Char :=
  ((cs.dropWhile Char.isWhitespace).reverse.dropWhile Char.isWhitespace).reverse

/-- Strip a leading sign, returning the sign as `1` or `-1`. -/
def stripSign : List Char → ℚ × List Char
  | '+' :: r => (1, r)
  | '-' :: r => (-1, r)
  | r => (1, r)

/-- Parse an unsigned decimal mantissa: `digits`, `digits.digits`,
`.digits` or `digits.` (at least one digit overall). -/
def parseMantissa (cs : List Char) : Option ℚ :=
  match splitDot cs with
  | (ip, Option.none) =>
    if ip ≠ [] ∧ ip.all Char.isDigit then some ((digitsVal ip : ℚ)) else Option.none
  | (ip, some fp) =>
    if fp.contains '.' then Option.none
    else if (ip ≠ [] ∨ fp ≠ []) ∧ ip.all Char.isDigit ∧ fp.all Char.isDigit then
      some ((digitsVal ip : ℚ) + (digitsVal fp : ℚ) / (10 : ℚ) ^ fp.length)
    else Option.none

/-- Parse a (signed) decimal exponent part. -/
def parseExpPart (cs : List Char) : Option Int :=
  let p : Int × List Char :=
    match cs with
    | '+' :: r => (1, r)
    | '-' :: r => (-1, r)
    | r => (1, r)
  if p.2 ≠ [] ∧ p.2.all Char.isDigit then some (p.1 * (digitsVal p.2 : Int)) else Option.none

/-- Ten to an integer power, as a rational. -/
def qpow10 (e : Int) : ℚ :=
  if 0 ≤ e then (10 : ℚ) ^ e.toNat else 1 / (10 : ℚ) ^ (-e).toNat

/-- Python `float(s)` on a string, for plain decimal literals with optional
sign, fraction and exponent (whitespace stripped).  The special literals
`inf`/`nan` and digit-group underscores accepted by CPython are not
modelled; no claim depends on them. Returns `none` where `float` raises
`ValueError`. -/
def parseFloat (s : String) : Option ℚ :=
  let cs := trimChars s.toList
  let sg := stripSign cs
  match splitE sg.2 with
  | (m, Option.none) => (parseMantissa m).map (fun q => sg.1 * q)
  | (m, some ecs) =>
    match parseMantissa m, parseExpPart ecs with
    | some q, some e => some (sg.1 * q * qpow10 e)
    | _, _ => Option.none

/-- Python `float(weight_raw)` with `TypeError`/`ValueError` mapped to
`none` — the source's inner `try: weight = float(weight_raw) except
(TypeError, ValueError): weight = None`. -/
def pyFloat : PyVal → Option ℚ
  | .num q => some q
  | .str s => parseFloat s
  | .null => Option.none
  | .other => Option.none

/-- One decoded record of the response's `PropertyTable.Properties` list:
`prop.get("MolecularFormula")` and `prop.get("MolecularWeight")`. -/
structure PropRecord where
  molecularFormula : Option String
  molecularWeight : PyVal
  deriving DecidableEq, Repr

/-- The observable outcome of one call to the external service:
`exn` for any exception raised inside the `try` block (connection error,
timeout, malformed JSON, anything unexpected), or a decoded response with
its status code and property-record list. -/
inductive RemoteOutcome
  | exn
  | status (code : Nat) (properties : List PropRecord)
  deriving DecidableEq, Repr

/-- The body of one iteration of the retry loop (source lines 60–78):
`some r` when the iteration `return`s `r`, `none` when it falls through to
the next attempt (exception swallowed, non-200 status, or empty
`Properties` list). -/
def attempt (o : RemoteOutcome) : Option PropertyResult :=
  match o with
  | .exn => Option.none
  | .status code props =>
    if code = 200 then
      match props with
      | [] => Option.none
      | p :: _ => some (p.molecularFormula, pyFloat p.molecularWeight)
    else Option.none

/-- The retry loop `for _ in range(3)`, with `fuel` attempts remaining and
`calls` external calls already made; returns the result together with the
total number of external calls. -/
def fetchAttempts (oracle : Nat → RemoteOutcome) : Nat → Nat → PropertyResult × Nat
  | 0, calls => ((Option.none, Option.none), calls)
  | fuel + 1, calls =>
    match attempt (oracle calls) with
    | some r => (r, calls + 1)
    | Option.none => fetchAttempts oracle fuel (calls + 1)

/-- `fetch_cas_info(cas, manual_data)` (source lines 36–80): the manual
override dictionary is consulted first (no external call); otherwise up to
3 external attempts are made.  Returns the resolved pair together with the
number of calls issued to the external service. -/
def fetch_cas_info (cas : String) (manual_data : List (String × PropertyResult))
    (oracle : Nat → RemoteOutcome) : PropertyResult × Nat :=
  match manual_data.lookup cas with
  | some v => (v, 0)
  | Option.none => fetchAttempts oracle 3 0

/-- The manual override dictionary of `process_file` (source lines
102–118), with the Python float literals carried as exact rationals. -/
def manual_data : List (String × PropertyResult) :=
  [ ("77536-66-4", (some "Ca2Fe5H2O24Si8", some ((9701 : ℚ) / 10))),
    ("77536-67-5", (some "H2Mg7O24Si8", some ((78082 : ℚ) / 100))),
    ("77536-68-6", (some "Ca2H2Mg5O24Si8", some ((81237 : ℚ) / 100))),
    ("13768-00-8", (some "Fe2H16Mg3Na2O24Si8+14", some ((85538 : ℚ) / 100))),
    ("17068-78-9", (some "Fe7H2O24Si8", some ((10016 : ℚ) / 10))),
    ("12172-67-7", (some "Ca2Fe5H2O24Si8", some ((9701 : ℚ) / 10))),
    ("12172-73-5", (some "Fe7H2O24Si8", some ((10016 : ℚ) / 10))),
    ("12001-28-4", (some "Fe2H16Mg3Na2O24Si8+14", some ((85538 : ℚ) / 100))),
    ("12001-29-5", (some "H4Mg3O9Si2", some ((27711 : ℚ) / 100))),
    ("1332-21-4", (Option.none, Option.none)),
    ("132207-32-0", (some "Ca2H2Mg5O24Si8", some ((81237 : ℚ) / 100))),
    ("132207-33-1", (some "Fe2H16Mg3Na2O24Si8+14", some ((85538 : ℚ) / 100))),
    ("14567-73-8", (some "H4Mg3O9Si2", some ((27711 : ℚ) / 100))),
    ("12185-10-3", (some "P4", some ((1238950480 : ℚ) / 10000000))),
    ("25512-42-9", (some "C12H8Cl2", some ((22309792 : ℚ) / 100000))) ]

/-- A spreadsheet cell as read by `pd.read_excel`: a missing cell (NaN),
a string cell, or a numeric cell.  Python's `str()` rendering of a numeric
cell is carried abstractly by `toString` on the rational; no claim depends
on the textual form of numeric cells. -/
inductive Cell
  | missing
  | str (s : String)
  | num (q : ℚ)
  deriving DecidableEq, Repr

/-- pandas `astype(str)` on one cell: NaN stringifies to `"nan"` (it is
not left as a missing value). -/
def Cell.pystr : Cell → String
  | .missing => "nan"
  | .str s => s
  | .num q => toString q

/-- pandas `Series.astype(str)`: every cell becomes a string cell. -/
def seriesAstypeStr (xs : List Cell) : List Cell :=
  xs.map (fun c => Cell.str c.pystr)

/-- pandas `Series.fillna(v)`: replaces missing cells only. -/
def seriesFillna (v : String) (xs : List Cell) : List Cell :=
  xs.map (fun c => match c with | Cell.missing => Cell.str v | c => c)

/-- Read a cell that is known to be a string (after `astype(str)`). -/
def Cell.getStr : Cell → String
  | .str s => s
  | .missing => ""
  | .num q => toString q

/-- Source line 99: `df.iloc[:, 0].astype(str).fillna("")` applied to the
first column. -/
def casSeriesOf (cells : List Cell) : List String :=
  (seriesFillna "" (seriesAstypeStr cells)).map Cell.getStr

/-- A dataframe: column labels and rectangular rows of cells. -/
structure DataFrame where
  columns : List String
  rows : List (List Cell)
  deriving DecidableEq, Repr

/-- pandas `df.empty`: true when either axis has length zero. -/
def DataFrame.isEmpty (df : DataFrame) : Bool :=
  df.rows.isEmpty || df.columns.isEmpty

/-- The first column of the dataframe (`df.iloc[:, 0]`). -/
def firstCol (df : DataFrame) : List Cell :=
  df.rows.map (fun r => r.headD Cell.missing)

/-- The dispatch loop (source lines 128–133): enumerate the identifier
series from index `i`, skip empty strings (`if not cas: continue`), and
submit one task `(index, identifier)` per remaining identifier.  Note the
submission is unconditional for non-empty identifiers — the override
dictionary is only consulted inside the task, by `fetch_cas_info`. -/
def tasksFrom : Nat → List String → List (Nat × String)
  | _, [] => []
  | i, c :: cs => if c = "" then tasksFrom (i + 1) cs else (i, c) :: tasksFrom (i + 1) cs

/-- All submitted tasks for an identifier series. -/
def tasks (cas : List String) : List (Nat × String) :=
  tasksFrom 0 cas

/-- The collection loop (source lines 135–142): each task's result is
written into the `formulas`/`weights` slots of its own index.  Completion
order (`as_completed`) is immaterial because task indices are pairwise
distinct; the fold records results in submission order.  The per-identifier
remote behaviour is `oracle idx`; the `except Exception` guard around
`future.result()` is unreachable since `fetch_cas_info` is total. -/
def runTasks (md : List (String × PropertyResult)) (oracle : Nat → Nat → RemoteOutcome)
    (ts : List (Nat × String)) (fw : List (Option String) × List (Option ℚ)) :
    List (Option String) × List (Option ℚ) :=
  ts.foldl
    (fun fw t =>
      let r := (fetch_cas_info t.2 md (oracle t.1)).1
      (fw.1.set t.1 r.1, fw.2.set t.1 r.2))
    fw

/-- The `formulas`/`weights` result lists of `process_file` for a given
identifier series: initialised to `[None] * len(cas_series)` (lines
121–122) and filled by the dispatched tasks. -/
def process_slots (md : List (String × PropertyResult)) (oracle : Nat → Nat → RemoteOutcome)
    (cas : List String) : List (Option String) × List (Option ℚ) :=
  runTasks md oracle (tasks cas)
    (List.replicate cas.length Option.none, List.replicate cas.length Option.none)

/-- Store an optional formula back into a dataframe cell (None → NaN). -/
def cellOfFormula : Option String → Cell
  | some s => Cell.str s
  | Option.none => Cell.missing

/-- Store an optional weight back into a dataframe cell (None → NaN). -/
def cellOfWeight : Option ℚ → Cell
  | some q => Cell.num q
  | Option.none => Cell.missing

/-- `process_file` (source lines 83–147): return an empty dataframe
unchanged; otherwise build the identifier series from the first column,
resolve it, and append the two result columns. -/
def process_file (df : DataFrame) (oracle : Nat → Nat → RemoteOutcome) : DataFrame :=
  if df.isEmpty then df
  else
    let cas := casSeriesOf (firstCol df)
    let fw := process_slots manual_data oracle cas
    { columns := df.columns ++ ["示性式", "分子量"],
      rows := (df.rows.zip (fw.1.zip fw.2)).map
        (fun p => p.1 ++ [cellOfFormula p.2.1, cellOfWeight p.2.2]) }

/-! ### Helper lemmas -/

/-- Unfolding the three-attempt retry loop one step at a time. -/
theorem fetchAttempts_succ (oracle : Nat → RemoteOutcome) (fuel calls : Nat) :
    fetchAttempts oracle (fuel + 1) calls =
      match attempt (oracle calls) with
      | some r => (r, calls + 1)
      | Option.none => fetchAttempts oracle fuel (calls + 1) := rfl

/-- `runTasks` never changes the lengths of the two slot lists. -/
theorem runTasks_lengths (md : List (String × PropertyResult))
    (oracle : Nat → Nat → RemoteOutcome) (ts : List (Nat × String))
    (fw : List (Option String) × List (Option ℚ)) :
    (runTasks md oracle ts fw).1.length = fw.1.length ∧
    (runTasks md oracle ts fw).2.length = fw.2.length := by
  induction ts generalizing fw with
  | nil => exact ⟨rfl, rfl⟩
  | cons t ts ih =>
    have h := ih ((fw.1.set t.1 ((fetch_cas_info t.2 md (oracle t.1)).1).1,
      fw.2.set t.1 ((fetch_cas_info t.2 md (oracle t.1)).1).2))
    simpa [runTasks, List.length_set] using h

/-- A slot whose index is hit by no task keeps its initial value. -/
theorem runTasks_getElem?_of_not_mem (md : List (String × PropertyResult))
    (oracle : Nat → Nat → RemoteOutcome) (ts : List (Nat × String)) (i : Nat)
    (fw : List (Option String) × List (Option ℚ))
    (h : ∀ t ∈ ts, t.1 ≠ i) :
    (runTasks md oracle ts fw).1[i]? = fw.1[i]? ∧
    (runTasks md oracle ts fw).2[i]? = fw.2[i]? := by
  induction ts generalizing fw with
  | nil => exact ⟨rfl, rfl⟩
  | cons t ts ih =>
    have ht : t.1 ≠ i := h t (by simp)
    have hrest : ∀ t' ∈ ts, t'.1 ≠ i := fun t' ht' => h t' (by simp [ht'])
    have hstep := ih ((fw.1.set t.1 ((fetch_cas_info t.2 md (oracle t.1)).1).1,
      fw.2.set t.1 ((fetch_cas_info t.2 md (oracle t.1)).1).2)) hrest
    simpa [runTasks, List.getElem?_set_ne ht] using hstep

/-- Characterisation of the task list: every submitted task carries the
identifier of its own index, and that identifier is non-empty. -/
theorem mem_tasksFrom {t : Nat × String} :
    ∀ (cs : List String) (i : Nat), t ∈ tasksFrom i cs →
      ∃ j, ∃ hj : j < cs.length, t.1 = i + j ∧ t.2 = cs[j] ∧ cs[j] ≠ "" := by
  intro cs
  induction cs with
  | nil => intro i h; simp [tasksFrom] at h
  | cons c cs ih =>
    intro i h
    by_cases hc : c = ""
    · rw [tasksFrom, if_pos hc] at h
      obtain ⟨j, hj, h1, h2, h3⟩ := ih (i + 1) h
      exact ⟨j + 1, by simpa using Nat.succ_lt_succ hj, by omega, by simpa using h2,
        by simpa using h3⟩
    · rw [tasksFrom, if_neg hc] at h
      rcases List.mem_cons.mp h with h | h
      · exact ⟨0, by simp, by simp [h], by simp [h], by simpa using hc⟩
      · obtain ⟨j, hj, h1, h2, h3⟩ := ih (i + 1) h
        exact ⟨j + 1, by simpa using Nat.succ_lt_succ hj, by omega, by simpa using h2,
          by simpa using h3⟩

/-- Every non-empty identifier of the series is submitted as a task. -/
theorem tasksFrom_mem_of_ne :
    ∀ (cs : List String) (i j : Nat) (hj : j < cs.length), cs[j] ≠ "" →
      (i + j, cs[j]) ∈ tasksFrom i cs := by
  intro cs
  induction cs with
  | nil => intro i j hj; simp at hj
  | cons c cs ih =>
    intro i j hj hne
    cases j with
    | zero =>
      simp only [List.getElem_cons_zero] at hne ⊢
      rw [tasksFrom, if_neg hne]
      simp
    | succ j =>
      simp only [List.getElem_cons_succ] at hne ⊢
      have hj' : j < cs.length := by simpa using Nat.lt_of_succ_lt_succ hj
      have h := ih (i + 1) j hj' hne
      have harith : i + (j + 1) = (i + 1) + j := by omega
      by_cases hc : c = ""
      · rw [tasksFrom, if_pos hc]; rw [harith]; exact h
      · rw [tasksFrom, if_neg hc]; rw [harith]; exact List.mem_cons_of_mem _ h

/-! ### Claim theorems -/

/-- C1: an identifier that is a key of the override table resolves to
exactly the table's stored pair, with zero calls to the external service,
whatever the remote behaviour — including when the stored value is
`(none, none)`. -/
theorem override_hit_returns_table_value (cas : String)
    (md : List (String × PropertyResult)) (v : PropertyResult)
    (oracle : Nat → RemoteOutcome) (h : md.lookup cas = some v) :
    fetch_cas_info cas md oracle = (v, 0) := by
  simp [fetch_cas_info, h]

/-- Witness for C1 at the `(none, none)`-valued override entry
`"1332-21-4"` (generic asbestos), against an always-raising remote. -/
theorem override_hit_returns_table_value_witness :
    manual_data.lookup "1332-21-4" = some (Option.none, Option.none) ∧
    fetch_cas_info "1332-21-4" manual_data (fun _ => RemoteOutcome.exn) =
      ((Option.none, Option.none), 0) :=
  ⟨by decide, override_hit_returns_table_value _ _ _ _ (by decide)⟩

/-- C3: for an identifier missing from the override table, when every one
of the three attempts fails, the resolver returns `(none, none)` and the
external service is called exactly 3 times. -/
theorem all_attempts_fail_calls_three (cas : String)
    (md : List (String × PropertyResult)) (oracle : Nat → RemoteOutcome)
    (hm : md.lookup cas = Option.none)
    (hf : ∀ j, j < 3 → attempt (oracle j) = Option.none) :
    fetch_cas_info cas md oracle = ((Option.none, Option.none), 3) := by
  simp [fetch_cas_info, hm, fetchAttempts, hf 0 (by omega), hf 1 (by omega), hf 2 (by omega)]

/-- Witness for C3: an unknown identifier against a remote that always
raises fails all three attempts. -/
theorem all_attempts_fail_calls_three_witness :
    manual_data.lookup "0000-00-0" = Option.none ∧
    fetch_cas_info "0000-00-0" manual_data (fun _ => RemoteOutcome.exn) =
      ((Option.none, Option.none), 3) :=
  ⟨by decide, all_attempts_fail_calls_three _ _ _ (by decide) (fun _ _ => rfl)⟩

/-- C5: if, on some attempt, the service answers 200 with a non-empty
record list whose weight value fails numeric coercion, the resolver
returns that record's formula paired with an absent weight as the success
of that attempt — no further attempt is made (the call count is exactly
the attempts used so far). -/
theorem weight_parse_failure_keeps_formula (cas : String)
    (md : List (String × PropertyResult)) (oracle : Nat → RemoteOutcome)
    (j : Nat) (hj : j < 3) (p : PropRecord) (tl : List PropRecord)
    (hm : md.lookup cas = Option.none)
    (hf : ∀ k, k < j → attempt (oracle k) = Option.none)
    (hr : oracle j = RemoteOutcome.status 200 (p :: tl))
    (hw : pyFloat p.molecularWeight = Option.none) :
    fetch_cas_info cas md oracle = ((p.molecularFormula, Option.none), j + 1) := by
  have hat : attempt (oracle j) = some (p.molecularFormula, Option.none) := by
    rw [hr]; simp [attempt, hw]
  interval_cases j
  · simp [fetch_cas_info, hm, fetchAttempts, hat]
  · simp [fetch_cas_info, hm, fetchAttempts, hf 0 (by omega), hat]
  · simp [fetch_cas_info, hm, fetchAttempts, hf 0 (by omega), hf 1 (by omega), hat]

/-- Witness for C5 at the first attempt: weight `"N/A"` (a non-numeric
string) keeps the formula and nulls the weight, with exactly one call. -/
theorem weight_parse_failure_keeps_formula_witness :
    pyFloat (PyVal.str "N/A") = Option.none ∧
    fetch_cas_info "0000-00-0" manual_data
      (fun _ => RemoteOutcome.status 200 [⟨some "H2O", PyVal.str "N/A"⟩]) =
      ((some "H2O", Option.none), 1) :=
  ⟨by decide,
    weight_parse_failure_keeps_formula "0000-00-0" manual_data
      (fun _ => RemoteOutcome.status 200 [⟨some "H2O", PyVal.str "N/A"⟩])
      0 (by omega) ⟨some "H2O", PyVal.str "N/A"⟩ [] (by decide)
      (fun k hk => absurd hk (by omega)) rfl (by decide)⟩

/-- C6: for every behaviour of the external service — exceptions
(transport error, timeout, malformed body, anything unexpected),
non-success statuses, empty record lists — the resolver never raises: it
always returns a `PropertyResult` that is either the override table's
value, the value extracted from a successful attempt, or the degraded
`(none, none)`. -/
theorem resolve_never_raises (cas : String) (md : List (String × PropertyResult))
    (oracle : Nat → RemoteOutcome) :
    md.lookup cas = some (fetch_cas_info cas md oracle).1 ∨
    (∃ j, j < (fetch_cas_info cas md oracle).2 ∧
      attempt (oracle j) = some (fetch_cas_info cas md oracle).1) ∨
    (fetch_cas_info cas md oracle).1 = (Option.none, Option.none) := by
  rcases hm : md.lookup cas with _ | v
  · right
    rcases h0 : attempt (oracle 0) with _ | r0
    · rcases h1 : attempt (oracle 1) with _ | r1
      · rcases h2 : attempt (oracle 2) with _ | r2
        · right; simp [fetch_cas_info, hm, fetchAttempts, h0, h1, h2]
        · left
          refine ⟨2, ?_⟩
          simp [fetch_cas_info, hm, fetchAttempts, h0, h1, h2]
      · left
        refine ⟨1, ?_⟩
        simp [fetch_cas_info, hm, fetchAttempts, h0, h1]
    · left
      refine ⟨0, ?_⟩
      simp [fetch_cas_info, hm, fetchAttempts, h0]
  · left
    simp [fetch_cas_info, hm]

/-- C2: the `formulas` and `weights` lists both have exactly the length of
the identifier series, for every series and every remote behaviour; and
the identifier series itself has one entry per input row. -/
theorem process_slots_lengths (md : List (String × PropertyResult))
    (oracle : Nat → Nat → RemoteOutcome) (cas : List String) :
    (process_slots md oracle cas).1.length = cas.length ∧
    (process_slots md oracle cas).2.length = cas.length ∧
    ∀ df : DataFrame, (casSeriesOf (firstCol df)).length = df.rows.length := by
  have h := runTasks_lengths md oracle (tasks cas)
    (List.replicate cas.length Option.none, List.replicate cas.length Option.none)
  refine ⟨?_, ?_, ?_⟩
  · simpa [process_slots, List.length_replicate] using h.1
  · simpa [process_slots, List.length_replicate] using h.2
  · intro df
    simp [casSeriesOf, seriesFillna, seriesAstypeStr, firstCol]

/-- C4: an empty-string identifier's slots remain `(none, none)`, and no
task carries its index (hence no dispatch and no remote call for it). -/
theorem empty_identifier_no_dispatch (md : List (String × PropertyResult))
    (oracle : Nat → Nat → RemoteOutcome) (cas : List String) (i : Nat)
    (hi : i < cas.length) (he : cas[i] = "") :
    (process_slots md oracle cas).1[i]? = some Option.none ∧
    (process_slots md oracle cas).2[i]? = some Option.none ∧
    ∀ t ∈ tasks cas, t.1 ≠ i := by
  have hno : ∀ t ∈ tasks cas, t.1 ≠ i := by
    intro t ht hti
    obtain ⟨j, hj, h1, h2, h3⟩ := mem_tasksFrom cas 0 ht
    have hji : j = i := by omega
    subst hji
    exact h3 he
  have h := runTasks_getElem?_of_not_mem md oracle (tasks cas) i
    (List.replicate cas.length Option.none, List.replicate cas.length Option.none) hno
  refine ⟨?_, ?_, hno⟩
  · rw [process_slots, h.1]
    simp [List.getElem?_replicate, hi]
  · rw [process_slots, h.2]
    simp [List.getElem?_replicate, hi]

/-- Witness for C4 on the one-element series `[""]`. -/
theorem empty_identifier_no_dispatch_witness :
    (process_slots manual_data (fun _ _ => RemoteOutcome.exn) [""]).1[0]? =
      some Option.none ∧
    (process_slots manual_data (fun _ _ => RemoteOutcome.exn) [""]).2[0]? =
      some Option.none ∧
    ∀ t ∈ tasks [""], t.1 ≠ 0 :=
  empty_identifier_no_dispatch manual_data (fun _ _ => RemoteOutcome.exn) [""] 0
    (by decide) (by decide)

/-- Counterexample to C7 as stated: `"77536-66-4"` is an override-table
key, yet the dispatch loop still creates and submits a task for it — the
override short-circuit lives inside `fetch_cas_info`, not in the
coordinator. -/
theorem override_hit_still_submits_task :
    manual_data.lookup "77536-66-4" ≠ Option.none ∧
    tasks ["77536-66-4"] = [(0, "77536-66-4")] := by decide

/-- C7 (amended): every non-empty identifier — override hit or not — is
submitted to the pool as a task, and an override-hit task performs no
remote call and returns exactly the table's value. -/
theorem non_empty_identifiers_all_submitted (cas : List String) (i : Nat)
    (hi : i < cas.length) :
    ((i, cas[i]) ∈ tasks cas ↔ cas[i] ≠ "") ∧
    ∀ v oracle, manual_data.lookup cas[i] = some v →
      fetch_cas_info cas[i] manual_data oracle = (v, 0) := by
  refine ⟨⟨?_, ?_⟩, ?_⟩
  · intro h hne
    obtain ⟨j, hj, h1, h2, h3⟩ := mem_tasksFrom cas 0 h
    have hji : i = j := by omega
    subst hji
    exact h3 (h2 ▸ hne)
  · intro hne
    have h := tasksFrom_mem_of_ne cas 0 i hi hne
    simpa [tasks] using h
  · intro v oracle h
    simp [fetch_cas_info, h]

/-- Witness for the amended C7 on the singleton override-hit input. -/
theorem non_empty_identifiers_all_submitted_witness :
    (((0 : Nat), (["77536-66-4"] : List String)[0]) ∈ tasks ["77536-66-4"] ↔
      (["77536-66-4"] : List String)[0] ≠ "") ∧
    ∀ v oracle, manual_data.lookup (["77536-66-4"] : List String)[0] = some v →
      fetch_cas_info (["77536-66-4"] : List String)[0] manual_data oracle = (v, 0) :=
  non_empty_identifiers_all_submitted ["77536-66-4"] 0 (by decide)

/-- Counterexample to C8 as stated: a missing first-column cell is
stringified to `"nan"` by `astype(str)` before `fillna("")` runs, so it is
not an empty identifier, it is dispatched as a task (towards a remote
lookup of the name "nan"), and no trimming is performed on string cells. -/
theorem missing_cell_not_empty_identifier :
    casSeriesOf (firstCol ⟨["CAS No."], [[Cell.missing]]⟩) = ["nan"] ∧
    ("nan" : String) ≠ "" ∧
    tasks (casSeriesOf (firstCol ⟨["CAS No."], [[Cell.missing]]⟩)) = [(0, "nan")] ∧
    casSeriesOf [Cell.str " 1332-21-4 "] = [" 1332-21-4 "] := by decide

/-- C8 (amended): normalization is string-coercion only — `fillna("")`,
running after `astype(str)`, replaces nothing, so the identifier of a cell
is exactly its Python `str()` rendering: a string cell stays as is (no
trimming) and a blank/missing cell becomes the non-empty string "nan". -/
theorem cas_series_is_string_coercion (cells : List Cell) :
    casSeriesOf cells = cells.map Cell.pystr ∧
    Cell.pystr Cell.missing = "nan" ∧
    ∀ s, Cell.pystr (Cell.str s) = s := by
  refine ⟨?_, rfl, fun s => rfl⟩
  induction cells with
  | nil => rfl
  | cons c cs ih =>
    simp [casSeriesOf, seriesAstypeStr, seriesFillna, Cell.getStr]

/-- C10: a spreadsheet with zero data rows is returned unchanged — no
result columns are appended and no lookup is performed. -/
theorem empty_input_unchanged (df : DataFrame) (oracle : Nat → Nat → RemoteOutcome)
    (h : df.rows = []) :
    process_file df oracle = df := by
  simp [process_file, DataFrame.isEmpty, h]

/-- Witness for C10 on a header-only dataframe. -/
theorem empty_input_unchanged_witness :
    process_file ⟨["CAS No."], []⟩ (fun _ _ => RemoteOutcome.exn) =
      ⟨["CAS No."], []⟩ :=
  empty_input_unchanged ⟨["CAS No."], []⟩ (fun _ _ => RemoteOutcome.exn) rfl
